import Mathlib

/-!
Verification of the startup logic of the staticroute-operator manager
(cmd/manager/main.go): environment parsing, protected-subnet collection,
gateway lookup, and the mainImpl wiring, shallowly embedded in Lean.
Go slices become lists, Go panics become the error side of Except,
and machine integers become Int/Nat.
-/

/-- Model of the prefix test used by strings.Contains: does the needle occur
at the head of the haystack character list? -/
def prefixMatches : List Char → List Char → Bool
  | _, [] => true
  | [], _ :: _ => false
  | h :: hs, n :: ns => (h == n) && prefixMatches hs ns

/-- Model of substring search: does the needle occur anywhere in the
haystack character list? An empty needle always occurs. -/
def containsSeq (needle : List Char) : List Char → Bool
  | [] => needle.isEmpty
  | c :: rest => prefixMatches (c :: rest) needle || containsSeq needle rest

/-- Model of Go strings.Contains on character lists. -/
def goContains (s sub : String) : Bool := containsSeq sub.data s.data

/-- Model of Go strings.Split with a one-character separator: splits at every
occurrence of the separator; the empty input yields one empty piece, as in Go. -/
def splitOnChar (sep : Char) : List Char → List (List Char)
  | [] => [[]]
  | c :: rest =>
    if c = sep then [] :: splitOnChar sep rest
    else
      match splitOnChar sep rest with
      | [] => [[c]]
      | h :: t => (c :: h) :: t

/-- Model of Go strings.SplitN(e, sep, 2) for the one-character separator used
in main.go: at most two pieces, split at the first occurrence of the separator. -/
def goSplitN2 (e : String) : List String :=
  match splitOnChar '=' e.data with
  | [] => []
  | [x] => [String.mk x]
  | x :: rest => [String.mk x, String.mk (List.intercalate ['='] rest)]

/-- Model of Go strings.Trim(s, " "): removes leading and trailing space
characters (only spaces, matching the cutset in the source). -/
def goTrimSpace (s : String) : String :=
  String.mk (((s.data.dropWhile fun c => c = ' ').reverse.dropWhile fun c => c = ' ').reverse)

/-- Model of Go strings.Split(v, ",") producing strings. -/
def goSplitComma (v : String) : List String :=
  (splitOnChar ',' v.data).map String.mk

/-- Model of the decimal-digit parser underlying Go net parsing (dtoi with full
consumption required): succeeds exactly on a non-empty all-digit string, reading
the digits as a decimal number (leading zeros are read as decimal, matching the
Go toolchain of the vintage of this repository). -/
def dtoiAll (l : List Char) : Option Nat :=
  if l = [] then none
  else if l.all Char.isDigit then
    some (l.foldl (fun a c => a * 10 + (c.toNat - 48)) 0)
  else none

/-- An IPv4 network as produced by net.ParseCIDR: the masked 32-bit network
address together with the mask length. -/
structure IPNet where
  addr : Nat
  maskLen : Nat
deriving DecidableEq, Repr

/-- Model of Go net.ParseIP restricted to dotted-quad IPv4 addresses: exactly
four fields separated by dots, each a non-empty all-digit string with value
at most 255. Returns the address as a 32-bit natural number. -/
def parseIPv4 (l : List Char) : Option Nat :=
  match (splitOnChar '.' l).map dtoiAll with
  | [some a, some b, some c, some d] =>
    if a ≤ 255 ∧ b ≤ 255 ∧ c ≤ 255 ∧ d ≤ 255 then
      some (((a * 256 + b) * 256 + c) * 256 + d)
    else none
  | _ => none

/-- Model of Go net.ParseCIDR restricted to IPv4 dotted-quad networks (IPv6
literal forms are outside this model and rejected): the input is split at the
first slash, the left part must be an IPv4 address, the right part a decimal
mask length at most 32; the result is the network address masked to the mask
length, as the source keeps only the returned IPNet. -/
def goParseCIDR (s : String) : Except String IPNet :=
  match splitOnChar '/' s.data with
  | [] => Except.error ("invalid CIDR address: " ++ s)
  | [_] => Except.error ("invalid CIDR address: " ++ s)
  | a :: rest =>
    match parseIPv4 a, dtoiAll (List.intercalate ['/'] rest) with
    | some ip, some m =>
      if m ≤ 32 then Except.ok ⟨ip / 2 ^ (32 - m) * 2 ^ (32 - m), m⟩
      else Except.error ("invalid CIDR address: " ++ s)
    | _, _ => Except.error ("invalid CIDR address: " ++ s)

/-- Model of Go strconv.Atoi: an optional sign followed by at least one decimal
digit, with the signed value required to fit in a 64-bit machine integer
(out-of-range input makes Atoi report an error, which main.go treats the same
as a syntax error). Returns none exactly when Atoi returns a non-nil error. -/
def goAtoi (s : String) : Option Int :=
  match s.data with
  | [] => none
  | c :: rest =>
    let signDigits : Bool × List Char :=
      if c = '+' then (false, rest)
      else if c = '-' then (true, rest)
      else (false, c :: rest)
    if signDigits.2 = [] then none
    else if signDigits.2.all Char.isDigit then
      let m : Nat := signDigits.2.foldl (fun a d => a * 10 + (d.toNat - 48)) 0
      let v : Int := if signDigits.1 then -(m : Int) else (m : Int)
      if -(2 ^ 63) ≤ v ∧ v ≤ 2 ^ 63 - 1 then some v else none
    else none

/-- Embedding of parseTargetTable (main.go:240-248): Atoi failure or a value
outside the closed interval 0..254 is a Go panic, modelled as Except.error;
otherwise the parsed table id is returned. -/
def parseTargetTable (targetTableEnv : String) : Except String Int :=
  match goAtoi targetTableEnv with
  | none =>
    Except.error ("Unable to parse custom table TARGET_TABLE=" ++ targetTableEnv)
  | some customTable =>
    if customTable < 0 ∨ customTable > 254 then
      Except.error ("Target table must be between 0 and 254 TARGET_TABLE=" ++ targetTableEnv)
    else Except.ok customTable

/-- Embedding of the package-level variable defaultRouteTable (main.go:56),
the id of the kernel main routing table. -/
def defaultRouteTable : Int := 254

/-- Embedding of the table-selection fragment of mainImpl (main.go:187-191),
parameterised by the parsing function so that non-consultation of
parseTargetTable on the empty value is expressible: the table starts as
defaultRouteTable and is replaced only when TARGET_TABLE is non-empty. -/
def selectTableWith (parse : String → Except String Int) (targetTableEnv : String) :
    Except String Int :=
  if targetTableEnv.length ≠ 0 then parse targetTableEnv
  else Except.ok defaultRouteTable

/-- The table-selection fragment as in the source, with parseTargetTable. -/
def selectTable : String → Except String Int := selectTableWith parseTargetTable

/-- Whether an Except value is a success; used to state all-or-nothing
behaviour of the panicking collection loop. -/
def exceptIsOk : Except ε α → Bool
  | Except.ok _ => true
  | Except.error _ => false

/-- The literal substring that selects protected-subnet environment variables
in collectProtectedSubnets (main.go:253). -/
def protectedSubnetMarker : String := "PROTECTED_SUBNET_"

/-- The name part of an environment entry, as main.go computes it:
the first piece of SplitN(e, sep, 2) with the equals-sign separator. -/
def envName (e : String) : String := (goSplitN2 e).headD ""

/-- The value part of an environment entry: the second piece of
SplitN(e, sep, 2), present whenever the entry holds an equals sign. -/
def envValue (e : String) : String := (goSplitN2 e).getD 1 ""

/-- Embedding of the inner loop of collectProtectedSubnets (main.go:254-260):
each comma piece is trimmed and parsed; a parse failure is a Go panic
(Except.error); successes are appended one at a time to the accumulator. -/
def parsePieces (parse : String → Except String IPNet) (acc : List IPNet) :
    List String → Except String (List IPNet)
  | [] => Except.ok acc
  | subnet :: rest =>
    match parse (goTrimSpace subnet) with
    | Except.error err => Except.error err
    | Except.ok subnetNet => parsePieces parse (acc ++ [subnetNet]) rest

/-- Embedding of the outer loop of collectProtectedSubnets (main.go:252-262):
entries whose name part holds the marker substring have their value split on
commas and parsed; indexing the missing value of a separator-free entry is the
Go index-out-of-range panic. Parameterised by the CIDR parser. -/
def collectLoop (parse : String → Except String IPNet) (acc : List IPNet) :
    List String → Except String (List IPNet)
  | [] => Except.ok acc
  | e :: rest =>
    if goContains (envName e) protectedSubnetMarker then
      match (goSplitN2 e)[1]? with
      | none => Except.error "runtime error: index out of range"
      | some v =>
        match parsePieces parse acc (goSplitComma v) with
        | Except.error err => Except.error err
        | Except.ok acc2 => collectLoop parse acc2 rest
    else collectLoop parse acc rest

/-- collectProtectedSubnets with an explicit CIDR parser. -/
def collectProtectedSubnetsWith (parse : String → Except String IPNet)
    (envVars : List String) : Except String (List IPNet) :=
  collectLoop parse [] envVars

/-- Embedding of collectProtectedSubnets (main.go:250-264) with the
net.ParseCIDR model. -/
def collectProtectedSubnets (envVars : List String) : Except String (List IPNet) :=
  collectProtectedSubnetsWith goParseCIDR envVars

/-- Specification-side traversal: parse every piece in order, failing without
a partial result on the first parse error. -/
def parseAll (parse : String → Except String IPNet) :
    List String → Except String (List IPNet)
  | [] => Except.ok []
  | p :: rest =>
    match parse p with
    | Except.error err => Except.error err
    | Except.ok n =>
      match parseAll parse rest with
      | Except.error err => Except.error err
      | Except.ok l => Except.ok (n :: l)

/-- The trimmed comma pieces contributed by one environment entry. -/
def envPieces (e : String) : List String :=
  (goSplitComma (envValue e)).map goTrimSpace

/-- Ordered concatenation of the pieces contributed by a list of entries. -/
def concatMapStr (f : String → List String) : List String → List String
  | [] => []
  | e :: rest => f e ++ concatMapStr f rest

/-- Modelled from the specification wording: the trimmed comma pieces of every
protected-subnet environment variable, in environment order and, within one
variable, comma order. -/
def relevantPieces (envVars : List String) : List String :=
  concatMapStr envPieces
    (envVars.filter fun e => goContains (envName e) protectedSubnetMarker)

/-- Modelled from the specification wording of the protected-subnet
collection: parse the relevant pieces in order into one ordered list. -/
def collectProtectedSubnetsSpec (parse : String → Except String IPNet)
    (envVars : List String) : Except String (List IPNet) :=
  parseAll parse (relevantPieces envVars)

/-- An environment entry is well formed when it holds an equals sign, so that
SplitN yields exactly a name and a value; entries of os.Environ always do. -/
def wellFormedEnv (envVars : List String) : Prop :=
  ∀ e ∈ envVars, (goSplitN2 e).length = 2

/-- Model of the netlink.Route record restricted to the field main.go reads:
the gateway, which like any Go net.IP may be nil (none). IP addresses are
abstracted as natural numbers; getGw never inspects them. -/
structure NetlinkRoute where
  gw : Option Nat
deriving DecidableEq, Repr

/-- Embedding of the getGw closure (main.go:103-109), parameterised by the
kernel lookup netlink.RouteGet. A lookup error is returned as a nil gateway
paired with the error; on a successful lookup the first route of the result
is indexed unconditionally, so an empty result is the Go index-out-of-range
panic, modelled as the outer Except.error. -/
def getGw (routeGet : Nat → Except String (List NetlinkRoute)) (ip : Nat) :
    Except String (Option Nat × Option String) :=
  match routeGet ip with
  | Except.error err => Except.ok (none, some err)
  | Except.ok route =>
    match route[0]? with
    | none => Except.error "runtime error: index out of range"
    | some r => Except.ok (r.gw, none)

/-- The value carried by a Go panic, as seen by the recover handler in main
(main.go:68-73): either the nil interface value or a non-nil value such as an
error or a message string. -/
inductive PanicValue where
  | nilValue
  | msg (s : String)
deriving DecidableEq, Repr

/-- A discovered API resource, restricted to the Kind field that mainImpl
inspects (main.go:197-198). -/
structure APIResource where
  kind : String
deriving DecidableEq, Repr

/-- Observable events of one mainImpl execution: creating the RouteManager
and invoking its Run method on a freshly spawned goroutine (main.go:203-207). -/
inductive Event where
  | createRouteManager
  | goRunRouteManager
deriving DecidableEq, Repr

/-- Number of occurrences of one event in an event trace. -/
def eventCount (ev : Event) : List Event → Nat
  | [] => 0
  | x :: rest => (if x = ev then 1 else 0) + eventCount ev rest

/-- The oracle inputs of mainImpl (main.go:126-139): each injected dependency
is represented by its outcome (an optional error for the fallible calls), and
getEnv by the values it returns for the two keys mainImpl queries. -/
structure MainImplParams where
  getConfigErr : Option String
  newManagerErr : Option String
  addToSchemeErr : Option String
  nodeHostname : String
  newKubernetesConfigErr : Option String
  serverResourcesErr : Option String
  apiResources : List APIResource
  targetTableEnv : String
  osEnv : List String
  addStaticRouteControllerErr : Option String
  addNodeControllerErr : Option String
  mgrStartErr : Option String
deriving Repr

/-- The straight-line prefix of mainImpl before the resource loop
(main.go:146-194), in source order: config, manager, scheme, NODE_HOSTNAME,
kubernetes client, discovery, table selection, protected subnets. Every
failure is a Go panic carrying a non-nil value. -/
def preChecks (p : MainImplParams) : Except PanicValue Unit :=
  match p.getConfigErr with
  | some e => Except.error (PanicValue.msg e)
  | none =>
  match p.newManagerErr with
  | some e => Except.error (PanicValue.msg e)
  | none =>
  match p.addToSchemeErr with
  | some e => Except.error (PanicValue.msg e)
  | none =>
  if p.nodeHostname = "" then
    Except.error (PanicValue.msg "Missing environment variable: NODE_HOSTNAME")
  else
  match p.newKubernetesConfigErr with
  | some e => Except.error (PanicValue.msg e)
  | none =>
  match p.serverResourcesErr with
  | some e => Except.error (PanicValue.msg e)
  | none =>
  match selectTable p.targetTableEnv with
  | Except.error e => Except.error (PanicValue.msg e)
  | Except.ok _ =>
  match collectProtectedSubnets p.osEnv with
  | Except.error e => Except.error (PanicValue.msg e)
  | Except.ok _ => Except.ok ()

/-- Embedding of the resource loop of mainImpl (main.go:197-221): resources
whose Kind is not StaticRoute are skipped; at the first StaticRoute the
RouteManager is created and Run is launched on its own goroutine, the static
route controller is added (a failure is a panic), and the loop exits via
break. The Bool result is crdFound. -/
def crdLoop (addErr : Option String) :
    List APIResource → List Event × Except PanicValue Bool
  | [] => ([], Except.ok false)
  | r :: rest =>
    if r.kind ≠ "StaticRoute" then crdLoop addErr rest
    else
      match addErr with
      | some e =>
        ([Event.createRouteManager, Event.goRunRouteManager],
          Except.error (PanicValue.msg e))
      | none =>
        ([Event.createRouteManager, Event.goRunRouteManager], Except.ok true)

/-- Embedding of mainImpl after the straight-line prefix (main.go:196-237):
the resource loop, the crdFound check — whose panic argument is the err
variable left nil by the preceding discovery check, hence a nil panic value —
then the node controller and the blocking manager start. -/
def crdPhase (p : MainImplParams) : List Event × Except PanicValue Unit :=
  match crdLoop p.addStaticRouteControllerErr p.apiResources with
  | (evs, Except.error pv) => (evs, Except.error pv)
  | (evs, Except.ok false) => (evs, Except.error PanicValue.nilValue)
  | (evs, Except.ok true) =>
    match p.addNodeControllerErr with
    | some e => (evs, Except.error (PanicValue.msg e))
    | none =>
      match p.mgrStartErr with
      | some e => (evs, Except.error (PanicValue.msg e))
      | none => (evs, Except.ok ())

/-- Embedding of mainImpl (main.go:145-238): the straight-line prefix, whose
failures produce no events, followed by the resource-loop phase. -/
def mainImpl (p : MainImplParams) : List Event × Except PanicValue Unit :=
  match preChecks p with
  | Except.error pv => ([], Except.error pv)
  | Except.ok _ => crdPhase p

/-- Whether any discovered resource has Kind StaticRoute (the loop condition
of main.go:198). -/
def hasStaticRouteKind : List APIResource → Bool
  | [] => false
  | r :: rest => if r.kind = "StaticRoute" then true else hasStaticRouteKind rest

/-- Process exit status as produced by the deferred recover handler of main
(main.go:68-73) around mainImpl, under the Go semantics of the vintage of this
repository (before Go 1.21): recover() after a panic with a nil argument
returns nil, the handler guard r != nil is then false and os.Exit(1) is not
reached, so the process finishes with status 0; a panic carrying a non-nil
value makes the handler exit with status 1; a normal return exits 0. -/
def mainExitCode (p : MainImplParams) : Nat :=
  match (mainImpl p).2 with
  | Except.ok _ => 0
  | Except.error pv => if pv = PanicValue.nilValue then 0 else 1

/-- A kernel lookup answering one route with gateway 5. -/
def rgOne : Nat → Except String (List NetlinkRoute) := fun _ => Except.ok [⟨some 5⟩, ⟨some 9⟩]

/-- A kernel lookup failing with an error. -/
def rgErr : Nat → Except String (List NetlinkRoute) := fun _ => Except.error "no route to host"

/-- A kernel lookup succeeding with an empty route list. -/
def rgEmpty : Nat → Except String (List NetlinkRoute) := fun _ => Except.ok []

/-- A well-formed environment with two protected-subnet variables (one with a
marker-containing name) and an unrelated variable. -/
def env0 : List String :=
  ["PROTECTED_SUBNET_A=10.0.0.0/8, 192.168.0.0/16", "PATH=/bin",
    "X_PROTECTED_SUBNET_Y=172.16.0.0/12"]

/-- An environment whose protected-subnet variable holds one bad CIDR piece. -/
def envBad : List String := ["PROTECTED_SUBNET_BAD=10.0.0.0/8,nonsense"]

/-- Fully healthy startup inputs whose discovery reports several resources,
two of them of Kind StaticRoute. -/
def runOnceParams : MainImplParams :=
  ⟨none, none, none, "node-a", none, none,
    [⟨"Node"⟩, ⟨"StaticRoute"⟩, ⟨"StaticRoute"⟩], "", [], none, none, none⟩

/-- Healthy startup inputs whose discovery reports no StaticRoute Kind. -/
def noCrdParams : MainImplParams :=
  ⟨none, none, none, "node-a", none, none, [⟨"Node"⟩], "", [], none, none, none⟩

/-- Startup inputs with an out-of-range TARGET_TABLE value. -/
def badTableParams : MainImplParams :=
  ⟨none, none, none, "node-a", none, none, [⟨"StaticRoute"⟩], "999", [], none, none, none⟩

/-- Startup inputs with an unset NODE_HOSTNAME. -/
def missingHostnameParams : MainImplParams :=
  ⟨none, none, none, "", none, none, [⟨"StaticRoute"⟩], "", [], none, none, none⟩

/-- Startup inputs with an unparsable protected-subnet CIDR. -/
def badSubnetParams : MainImplParams :=
  ⟨none, none, none, "node-a", none, none, [⟨"StaticRoute"⟩], "",
    ["PROTECTED_SUBNET_X=border"], none, none, none⟩

example : mainExitCode badTableParams = 1 := rfl
example : mainExitCode missingHostnameParams = 1 := rfl
example : mainExitCode badSubnetParams = 1 := rfl
example : mainExitCode noCrdParams = 0 := rfl
example : (mainImpl noCrdParams).2 = Except.error PanicValue.nilValue := rfl
example : mainExitCode runOnceParams = 0 := rfl
example : (mainImpl runOnceParams).1 = [Event.createRouteManager, Event.goRunRouteManager] := rfl
example : collectProtectedSubnets envBad = Except.error "invalid CIDR address: nonsense" := rfl
example : relevantPieces ["PROTECTED_SUBNET_EX="] = [""] := rfl
example : exceptIsOk (collectProtectedSubnets ["PROTECTED_SUBNET_EX="]) = false := rfl
example : collectProtectedSubnets env0 =
    Except.ok [⟨10 * 2 ^ 24, 8⟩, ⟨(192 * 256 + 168) * 2 ^ 16, 16⟩, ⟨(172 * 256 + 16) * 2 ^ 16, 12⟩] := rfl

example : parseTargetTable "254" = Except.ok 254 := rfl
example : parseTargetTable "255" = Except.error "Target table must be between 0 and 254 TARGET_TABLE=255" := rfl
example : parseTargetTable "abc" = Except.error "Unable to parse custom table TARGET_TABLE=abc" := rfl
example : parseTargetTable "-1" = Except.error "Target table must be between 0 and 254 TARGET_TABLE=-1" := rfl
example : goParseCIDR "10.0.0.0/8" = Except.ok ⟨10 * 2 ^ 24, 8⟩ := rfl
example : goParseCIDR "10.1.2.3/8" = Except.ok ⟨10 * 2 ^ 24, 8⟩ := rfl
example : (goParseCIDR "").isOk = false := rfl
example : goSplitN2 "A=b=c" = ["A", "b=c"] := by decide
example : goSplitComma "" = [""] := by decide
example : goTrimSpace "  10.0.0.0/8 " = "10.0.0.0/8" := by decide
example : goContains "X_PROTECTED_SUBNET_Y" "PROTECTED_SUBNET_" = true := by decide
example : goContains "PATH" "PROTECTED_SUBNET_" = false := by decide

/-! ## Theorems -/

/-- C2: parseTargetTable returns the table id n exactly when the TARGET_TABLE
string parses (in the sense of strconv.Atoi) as the integer n with
0 <= n <= 254; every other string is a fatal configuration error and no
table id is returned. -/
theorem parseTargetTable_ok_iff (s : String) (n : Int) :
    parseTargetTable s = Except.ok n ↔
      (goAtoi s = some n ∧ 0 ≤ n ∧ n ≤ 254) := by
  cases h : goAtoi s with
  | none => simp [parseTargetTable, h]
  | some m =>
    simp only [parseTargetTable, h]
    by_cases hm : m < 0 ∨ m > 254
    · rw [if_pos hm]
      constructor
      · intro hco
        exact absurd hco (by simp)
      · rintro ⟨hmn, h0, h1⟩
        injection hmn with hmn
        omega
    · rw [if_neg hm]
      simp only [Except.ok.injEq, Option.some.injEq]
      constructor
      · rintro rfl
        exact ⟨rfl, by omega, by omega⟩
      · rintro ⟨rfl, _, _⟩
        rfl

/-- C6: with TARGET_TABLE unset (the empty string from getEnv), the selected
table is 254, the kernel main routing table, and this holds for every possible
parsing function — parseTargetTable is not consulted. -/
theorem selectTable_default_main_table :
    (∀ parse : String → Except String Int, selectTableWith parse "" = Except.ok 254) ∧
      selectTable "" = Except.ok 254 :=
  ⟨fun _ => rfl, rfl⟩

/-- C5: getGw performs the kernel lookup; when the lookup fails it returns a
nil gateway together with the lookup error, and when the lookup succeeds with
a best-matching route it returns the gateway of the first route of the
result. -/
theorem getGw_returns_first_route_gw
    (routeGet : Nat → Except String (List NetlinkRoute)) (ip : Nat) :
    (∀ err, routeGet ip = Except.error err →
      getGw routeGet ip = Except.ok (none, some err)) ∧
    (∀ r rest, routeGet ip = Except.ok (r :: rest) →
      getGw routeGet ip = Except.ok (r.gw, none)) := by
  constructor
  · intro err h
    simp [getGw, h]
  · intro r rest h
    simp [getGw, h]

/-- Witness for C5 at concrete lookups: a successful lookup whose first route
has gateway 5, and a failing lookup. -/
theorem getGw_returns_first_route_gw_witness :
    getGw rgOne 7 = Except.ok (some 5, none) ∧
      getGw rgErr 7 = Except.ok (none, some "no route to host") :=
  ⟨(getGw_returns_first_route_gw rgOne 7).2 ⟨some 5⟩ [⟨some 9⟩] rfl,
    (getGw_returns_first_route_gw rgErr 7).1 "no route to host" rfl⟩

/-- C8: getGw indexes the first element of the lookup result without a
non-emptiness check: a lookup that succeeds with an empty route list is an
index-out-of-range panic, not an error return. -/
theorem getGw_empty_route_list_panics
    (routeGet : Nat → Except String (List NetlinkRoute)) (ip : Nat)
    (h : routeGet ip = Except.ok []) :
    getGw routeGet ip = Except.error "runtime error: index out of range" := by
  simp [getGw, h]

/-- Witness for C8 at a concrete lookup returning a nil error and an empty
route list. -/
theorem getGw_empty_route_list_panics_witness :
    getGw rgEmpty 7 = Except.error "runtime error: index out of range" :=
  getGw_empty_route_list_panics rgEmpty 7 rfl

/-- C10: a protected-subnet variable set to the empty string is a fatal
startup error: the empty value splits into exactly one empty piece, whose
CIDR parse fails, so the collection panics instead of reading the variable
as declaring zero subnets. -/
theorem empty_protected_subnet_var_fatal :
    relevantPieces ["PROTECTED_SUBNET_EX="] = [""] ∧
      exceptIsOk (collectProtectedSubnets ["PROTECTED_SUBNET_EX="]) = false :=
  ⟨rfl, rfl⟩

/-- The inner piece loop equals the specification traversal of the trimmed
pieces, prefixed by the accumulator. -/
theorem parsePieces_eq (parse : String → Except String IPNet)
    (pieces : List String) : ∀ acc : List IPNet,
    parsePieces parse acc pieces =
      match parseAll parse (pieces.map goTrimSpace) with
      | Except.error err => Except.error err
      | Except.ok l => Except.ok (acc ++ l) := by
  induction pieces with
  | nil => intro acc; simp [parsePieces, parseAll]
  | cons s rest ih =>
    intro acc
    simp only [parsePieces, List.map_cons, parseAll]
    cases parse (goTrimSpace s) with
    | error err => rfl
    | ok n =>
      dsimp only
      rw [ih (acc ++ [n])]
      cases parseAll parse (rest.map goTrimSpace) with
      | error err => rfl
      | ok l => simp

/-- The specification traversal distributes over list append. -/
theorem parseAll_append (parse : String → Except String IPNet)
    (xs ys : List String) :
    parseAll parse (xs ++ ys) =
      match parseAll parse xs with
      | Except.error err => Except.error err
      | Except.ok l1 =>
        match parseAll parse ys with
        | Except.error err => Except.error err
        | Except.ok l2 => Except.ok (l1 ++ l2) := by
  induction xs with
  | nil =>
    simp only [List.nil_append, parseAll]
    cases parseAll parse ys with
    | error err => rfl
    | ok l => simp
  | cons x xs ih =>
    simp only [List.cons_append, parseAll]
    cases parse x with
    | error err => rfl
    | ok n =>
      dsimp only [List.append_eq]
      rw [ih]
      cases parseAll parse xs with
      | error err => rfl
      | ok l1 =>
        cases parseAll parse ys with
        | error err => rfl
        | ok l2 => simp

/-- A well-formed entry has exactly a name and a value, and its second SplitN
piece is its value. -/
theorem goSplitN2_snd (e : String) (h : (goSplitN2 e).length = 2) :
    (goSplitN2 e)[1]? = some (envValue e) := by
  rcases List.length_eq_two.mp h with ⟨a, b, hab⟩
  simp [hab, envValue]

/-- The collection loop equals the specification traversal of the relevant
pieces, prefixed by the accumulator, on every well-formed environment. -/
theorem collectLoop_eq (parse : String → Except String IPNet)
    (envVars : List String) (hwf : wellFormedEnv envVars) : ∀ acc : List IPNet,
    collectLoop parse acc envVars =
      match parseAll parse (relevantPieces envVars) with
      | Except.error err => Except.error err
      | Except.ok l => Except.ok (acc ++ l) := by
  induction envVars with
  | nil =>
    intro acc
    simp [collectLoop, relevantPieces, concatMapStr, parseAll]
  | cons e rest ih =>
    intro acc
    have hwe : (goSplitN2 e).length = 2 := hwf e (by simp)
    have hwr : wellFormedEnv rest := fun x hx => hwf x (by simp [hx])
    by_cases hc : goContains (envName e) protectedSubnetMarker = true
    · have hrel : relevantPieces (e :: rest) =
          envPieces e ++ relevantPieces rest := by
        simp [relevantPieces, List.filter_cons, hc, concatMapStr]
      rw [hrel, parseAll_append]
      simp only [collectLoop, hc, if_true, goSplitN2_snd e hwe]
      rw [parsePieces_eq]
      have hpieces : (goSplitComma (envValue e)).map goTrimSpace = envPieces e := rfl
      rw [hpieces]
      cases parseAll parse (envPieces e) with
      | error err => rfl
      | ok l1 =>
        dsimp only
        rw [ih hwr (acc ++ l1)]
        cases parseAll parse (relevantPieces rest) with
        | error err => rfl
        | ok l2 => simp
    · have hcf : goContains (envName e) protectedSubnetMarker = false := by
        simpa using hc
      have hrel : relevantPieces (e :: rest) = relevantPieces rest := by
        simp [relevantPieces, List.filter_cons, hcf]
      rw [hrel]
      simp only [collectLoop, hcf]
      rw [ih hwr acc]
      simp

/-- C3: collectProtectedSubnets returns exactly the networks obtained by
taking every environment variable whose name holds the protected-subnet
marker, splitting its value on commas, trimming spaces, and parsing each
piece as a CIDR network, concatenated in environment order and, within one
variable, comma order. -/
theorem collectProtectedSubnets_eq_spec (parse : String → Except String IPNet)
    (envVars : List String) (hwf : wellFormedEnv envVars) :
    collectProtectedSubnetsWith parse envVars =
      collectProtectedSubnetsSpec parse envVars := by
  unfold collectProtectedSubnetsWith collectProtectedSubnetsSpec
  rw [collectLoop_eq parse envVars hwf []]
  cases parseAll parse (relevantPieces envVars) with
  | error err => rfl
  | ok l => simp

/-- Witness for C3 on a concrete environment with two protected-subnet
variables and an unrelated one. -/
theorem collectProtectedSubnets_eq_spec_witness :
    collectProtectedSubnetsWith goParseCIDR env0 =
      collectProtectedSubnetsSpec goParseCIDR env0 :=
  collectProtectedSubnets_eq_spec goParseCIDR env0
    (by show ∀ e ∈ env0, (goSplitN2 e).length = 2
        decide)

/-- The specification traversal succeeds exactly when every piece parses. -/
theorem parseAll_isOk_iff (parse : String → Except String IPNet)
    (l : List String) :
    exceptIsOk (parseAll parse l) = true ↔
      ∀ p ∈ l, exceptIsOk (parse p) = true := by
  induction l with
  | nil => simp [parseAll, exceptIsOk]
  | cons p rest ih =>
    simp only [parseAll, List.forall_mem_cons]
    cases hp : parse p with
    | error err => simp [exceptIsOk, hp]
    | ok n =>
      cases hr : parseAll parse rest with
      | error e2 => simp_all [exceptIsOk]
      | ok l2 => simp_all [exceptIsOk]

/-- C4: on a well-formed environment the collection succeeds exactly when
every relevant CIDR piece parses: one bad block anywhere makes startup fail
fatally, and no partial protected-subnet collection is produced. -/
theorem collectProtectedSubnets_ok_iff (parse : String → Except String IPNet)
    (envVars : List String) (hwf : wellFormedEnv envVars) :
    exceptIsOk (collectProtectedSubnetsWith parse envVars) = true ↔
      ∀ p ∈ relevantPieces envVars, exceptIsOk (parse p) = true := by
  unfold collectProtectedSubnetsWith
  rw [collectLoop_eq parse envVars hwf []]
  rw [← parseAll_isOk_iff parse (relevantPieces envVars)]
  cases parseAll parse (relevantPieces envVars) with
  | error err => exact Iff.rfl
  | ok l => exact Iff.rfl

/-- Witness for C4 on a concrete environment holding one bad CIDR piece. -/
theorem collectProtectedSubnets_ok_iff_witness :
    exceptIsOk (collectProtectedSubnetsWith goParseCIDR envBad) = true ↔
      ∀ p ∈ relevantPieces envBad, exceptIsOk (goParseCIDR p) = true :=
  collectProtectedSubnets_ok_iff goParseCIDR envBad
    (by show ∀ e ∈ envBad, (goSplitN2 e).length = 2
        decide)

/-- Dropping an entry whose name part lacks the marker substring does not
change the collection, wherever the entry sits. -/
theorem collectLoop_skip (parse : String → Except String IPNet) (e : String)
    (hc : goContains (envName e) protectedSubnetMarker = false)
    (env2 : List String) : ∀ (env1 : List String) (acc : List IPNet),
    collectLoop parse acc (env1 ++ e :: env2) =
      collectLoop parse acc (env1 ++ env2) := by
  intro env1
  induction env1 with
  | nil =>
    intro acc
    simp [collectLoop, hc]
  | cons f env1 ih =>
    intro acc
    simp only [List.cons_append, collectLoop]
    by_cases hf : goContains (envName f) protectedSubnetMarker = true
    · simp only [hf, if_true]
      cases (goSplitN2 f)[1]? with
      | none => rfl
      | some v =>
        dsimp only
        cases parsePieces parse acc (goSplitComma v) with
        | error err => rfl
        | ok acc2 => exact ih acc2
    · have hf2 : goContains (envName f) protectedSubnetMarker = false := by
        simpa using hf
      simp only [hf2, Bool.false_eq_true, if_false]
      exact ih acc

/-- C9: selection of protected-subnet variables is by substring containment
of the marker in the name part: an entry whose name lacks the marker
contributes nothing wherever it sits, and a single entry whose name holds the
marker anywhere has exactly its trimmed comma pieces parsed. -/
theorem protected_subnet_selection_by_substring
    (parse : String → Except String IPNet) :
    (∀ env1 env2 e, goContains (envName e) protectedSubnetMarker = false →
      collectProtectedSubnetsWith parse (env1 ++ e :: env2) =
        collectProtectedSubnetsWith parse (env1 ++ env2)) ∧
    (∀ e, (goSplitN2 e).length = 2 →
      goContains (envName e) protectedSubnetMarker = true →
      collectProtectedSubnetsWith parse [e] = parseAll parse (envPieces e)) := by
  constructor
  · intro env1 env2 e hc
    exact collectLoop_skip parse e hc env2 env1 []
  · intro e hlen hc
    unfold collectProtectedSubnetsWith
    simp only [collectLoop, hc, if_true, goSplitN2_snd e hlen]
    rw [parsePieces_eq]
    have hpieces : (goSplitComma (envValue e)).map goTrimSpace = envPieces e := rfl
    rw [hpieces]
    cases parseAll parse (envPieces e) with
    | error err => rfl
    | ok l => simp [collectLoop]

/-- Witness for C9: the unrelated HOME entry contributes nothing, and the
entry named X_PROTECTED_SUBNET_Y, whose name merely contains the marker,
contributes its value. -/
theorem protected_subnet_selection_by_substring_witness :
    collectProtectedSubnetsWith goParseCIDR
        ["HOME=x", "PROTECTED_SUBNET_A=10.0.0.0/8"] =
      collectProtectedSubnetsWith goParseCIDR ["PROTECTED_SUBNET_A=10.0.0.0/8"] ∧
    collectProtectedSubnetsWith goParseCIDR ["X_PROTECTED_SUBNET_Y=10.0.0.0/8"] =
      parseAll goParseCIDR (envPieces "X_PROTECTED_SUBNET_Y=10.0.0.0/8") :=
  ⟨(protected_subnet_selection_by_substring goParseCIDR).1
      [] ["PROTECTED_SUBNET_A=10.0.0.0/8"] "HOME=x" (by decide),
    (protected_subnet_selection_by_substring goParseCIDR).2
      "X_PROTECTED_SUBNET_Y=10.0.0.0/8" (by decide) (by decide)⟩

/-- The resource loop either skips every resource (no StaticRoute Kind) and
emits no event, or stops at the first StaticRoute Kind having created one
RouteManager and launched one Run goroutine. -/
theorem crdLoop_shape (addErr : Option String) (rs : List APIResource) :
    ((crdLoop addErr rs).1 = [] ∧ hasStaticRouteKind rs = false) ∨
    ((crdLoop addErr rs).1 =
        [Event.createRouteManager, Event.goRunRouteManager] ∧
      hasStaticRouteKind rs = true) := by
  induction rs with
  | nil => exact Or.inl ⟨rfl, rfl⟩
  | cons r rest ih =>
    by_cases h : r.kind = "StaticRoute"
    · right
      refine ⟨?_, by simp [hasStaticRouteKind, h]⟩
      simp only [crdLoop, h]
      cases addErr <;> simp
    · have h1 : crdLoop addErr (r :: rest) = crdLoop addErr rest := by
        simp [crdLoop, h]
      have h2 : hasStaticRouteKind (r :: rest) = hasStaticRouteKind rest := by
        simp [hasStaticRouteKind, h]
      rw [h1, h2]
      exact ih

/-- The event trace of the loop phase is the loop trace: the later
crdFound check, node controller and manager start add no events. -/
theorem crdPhase_events (p : MainImplParams) :
    (crdPhase p).1 = (crdLoop p.addStaticRouteControllerErr p.apiResources).1 := by
  unfold crdPhase
  rcases hres : crdLoop p.addStaticRouteControllerErr p.apiResources with ⟨evs, res⟩
  cases res with
  | error pv => simp
  | ok b =>
    cases b
    · simp
    · cases p.addNodeControllerErr <;> cases p.mgrStartErr <;> simp

/-- mainImpl emits no event when a pre-loop check fails, and exactly the
loop trace otherwise. -/
theorem mainImpl_events (p : MainImplParams) :
    (exceptIsOk (preChecks p) = false ∧ (mainImpl p).1 = []) ∨
    (exceptIsOk (preChecks p) = true ∧
      (mainImpl p).1 = (crdLoop p.addStaticRouteControllerErr p.apiResources).1) := by
  unfold mainImpl
  cases h : preChecks p with
  | error pv => exact Or.inl ⟨rfl, rfl⟩
  | ok u => exact Or.inr ⟨rfl, crdPhase_events p⟩

/-- C7: mainImpl creates at most one RouteManager, launches Run on its own
goroutine exactly as many times as it creates a manager (never twice), and
when the pre-loop checks pass and the discovered resources contain a
StaticRoute Kind — even several — Run is launched exactly once. -/
theorem mainImpl_creates_and_runs_once (p : MainImplParams) :
    eventCount Event.createRouteManager (mainImpl p).1 ≤ 1 ∧
    eventCount Event.goRunRouteManager (mainImpl p).1 =
      eventCount Event.createRouteManager (mainImpl p).1 ∧
    (exceptIsOk (preChecks p) = true →
      hasStaticRouteKind p.apiResources = true →
      eventCount Event.goRunRouteManager (mainImpl p).1 = 1) := by
  rcases mainImpl_events p with ⟨hpre, hev⟩ | ⟨hpre, hev⟩
  · rw [hev]
    refine ⟨by simp [eventCount], rfl, fun h1 _ => ?_⟩
    rw [hpre] at h1
    exact (Bool.false_ne_true h1).elim
  · rw [hev]
    rcases crdLoop_shape p.addStaticRouteControllerErr p.apiResources with
      ⟨hsh, hno⟩ | ⟨hsh, hyes⟩
    · rw [hsh]
      refine ⟨by simp [eventCount], rfl, fun _ h2 => ?_⟩
      rw [hno] at h2
      exact (Bool.false_ne_true h2).elim
    · rw [hsh]
      exact ⟨by decide, by decide, fun _ _ => by decide⟩

/-- Witness for C7 on healthy startup inputs whose discovery reports two
StaticRoute resources among several: Run is launched exactly once. -/
theorem mainImpl_creates_and_runs_once_witness :
    eventCount Event.goRunRouteManager (mainImpl runOnceParams).1 = 1 :=
  (mainImpl_creates_and_runs_once runOnceParams).2.2 rfl rfl

/-- C1 evaluation: the bad-table-id, unparsable-protected-subnet-CIDR and
missing-NODE_HOSTNAME paths all panic with a non-nil value and the recover
handler exits with status 1, but the missing-StaticRoute-schema path panics
with the nil err value left by the earlier discovery check, the recover
handler guard r != nil then fails, and the process exits with status 0 —
not the non-zero status the specification requires. -/
theorem mainImpl_missing_crd_exit_status :
    mainExitCode badTableParams = 1 ∧
    mainExitCode missingHostnameParams = 1 ∧
    mainExitCode badSubnetParams = 1 ∧
    (mainImpl noCrdParams).2 = Except.error PanicValue.nilValue ∧
    mainExitCode noCrdParams = 0 :=
  ⟨rfl, rfl, rfl, rfl, rfl⟩
